import Mathlib

/-!
Shallow embedding of the s3select JSON WHERE-clause evaluator from
pkg/s3select/jsonHelpers.go of the repository under study, together with
spec-modelled definitions for the external collaborators that the file
calls but that are not part of the repository sources provided here
(the gjson path resolver and the operand coercion / comparison helpers
of the surrounding s3select package).
-/

namespace S3Select

/-- Kind of a decoded JSON scalar value, as produced by the external
streaming JSON decoder and consumed by the gjson path resolver.  Nested
objects and arrays are not needed by any claim and are not modelled. -/
inductive JValue where
  | jstr (s : String)
  | jint (n : Int)
  | jbool (b : Bool)
  | jnull
  deriving DecidableEq, Repr

/-- One decoded JSON document (a record), modelled as an association list
from field name to value.  In the Go code a record reaches jsonValue as a
raw JSON string and is resolved by gjson; here it is already decoded. -/
def Record := List (String × JValue)

/-- Column-name mapping, Go map from string to int.  The evaluator carries
it through every call but never consults it for JSON rows. -/
def ColumnNames := List (String × Nat)

/-- Errors of the evaluator.  The first mirrors the package-level
ErrUnsupportedSQLOperation value referenced by jsonHelpers.go; the other
two are Modelled from the spec: section 7 distinguishes a coercion failure
for unrecognized literal kinds and a type-mismatch failure for incomparable
operands, both produced by helpers living outside the provided sources. -/
inductive SError where
  | unsupportedSQLOperation
  | parseUnknownType
  | typeMismatch
  deriving DecidableEq, Repr

/-- Package-level error value used by jsonWhereClause. -/
def ErrUnsupportedSQLOperation : SError := .unsupportedSQLOperation

/-- Parsed SQL literal token, mirroring sqlparser.SQLVal: a string
literal, an integer literal, or some other literal kind the coercion
helper does not recognize (carrying its textual rendering). -/
inductive SQLLit where
  | strVal (s : String)
  | intVal (n : Int)
  | unknownVal (render : String)
  deriving DecidableEq, Repr

/-- WHERE-clause AST node, mirroring the sqlparser node kinds that
jsonWhereClause dispatches on: boolean literal, column reference, SQL
literal, IS-expression, range condition (BETWEEN), binary comparison,
AND, OR, and any other node kind (carrying its textual rendering).
Column references store the string returned by CompliantName. -/
inductive WhereExpr where
  | boolVal (b : Bool)
  | colName (name : String)
  | sqlVal (v : SQLLit)
  | isExpr (op : String) (inner : WhereExpr)
  | rangeCond (op : String) (left fromE toE : WhereExpr)
  | comparisonExpr (op : String) (left right : WhereExpr)
  | andExpr (left right : WhereExpr)
  | orExpr (left right : WhereExpr)
  | other (render : String)
  deriving DecidableEq, Repr

/-- Textual rendering of a node, modelling the Go expression
fmt.Sprintf with verb v applied to the node.  A bare boolean literal
renders as true or false; composite nodes render with spaces between
their parts, so no composite rendering ever equals the five-character
string false.  Unrecognized nodes carry their own rendering. -/
def exprString : WhereExpr → String
  | .boolVal b => if b then "true" else "false"
  | .colName n => n
  | .sqlVal (.strVal s) => "'" ++ s ++ "'"
  | .sqlVal (.intVal n) => toString n
  | .sqlVal (.unknownVal r) => r
  | .isExpr op inner => exprString inner ++ " " ++ op
  | .rangeCond op l f t =>
      exprString l ++ " " ++ op ++ " " ++ exprString f ++ " and " ++ exprString t
  | .comparisonExpr op l r => exprString l ++ " " ++ op ++ " " ++ exprString r
  | .andExpr l r => exprString l ++ " and " ++ exprString r
  | .orExpr l r => exprString l ++ " or " ++ exprString r
  | .other r => r

/-- Modelled from the spec: the external JSON-path resolver (gjson.Get in
the Go code, out of scope per spec section 1 and section 6) — resolves a
field name against a decoded record. -/
def jsonGet : List (String × JValue) → String → Option JValue
  | [], _ => none
  | (k, v) :: rest, p => if k = p then some v else jsonGet rest p

/-- Modelled from the spec: section 4.2 — textual representation of a
resolved value: numbers in decimal form, booleans as true or false,
strings verbatim; a JSON null renders as the empty string (gjson's
Result.String on a null result). -/
def jvalueString : JValue → String
  | .jstr s => s
  | .jint n => toString n
  | .jbool b => if b then "true" else "false"
  | .jnull => ""

/-- Embedding of jsonValue (jsonHelpers.go): resolves the path input
against the record via gjson and returns the value's textual form; a path
that resolves to nothing yields the empty string (spec section 6: empty
string denotes not found). -/
def jsonValue (input : String) (row : Record) : String :=
  match jsonGet row input with
  | none => ""
  | some v => jvalueString v

/-- Typed operand produced by coercing a SQL literal. -/
inductive Operand where
  | str (s : String)
  | int (n : Int)
  deriving DecidableEq, Repr

/-- Modelled from the spec: section 4.3 Operand Coercion
(evaluateParserType in the surrounding s3select package, not among the
provided sources) — converts a parsed SQL literal into a typed value and
fails with a descriptive error for literal kinds it does not recognize. -/
def evaluateParserType : SQLLit → Except SError Operand
  | .strVal s => .ok (.str s)
  | .intVal n => .ok (.int n)
  | .unknownVal _ => .error .parseUnknownType

/-- Byte-wise (code-point-wise) lexicographic strict order on strings,
the ordering the spec prescribes for string comparison (section 4.4). -/
def strLt : List Char → List Char → Bool
  | [], [] => false
  | [], _ :: _ => true
  | _ :: _, [] => false
  | a :: as, b :: bs => if a < b then true else if b < a then false else strLt as bs

/-- Evaluation of one of the six supported comparison operators on two
strings, lexically (spec section 4.4). -/
def strCmpEval (a : String) (op : String) (b : String) : Bool :=
  if op = "=" then a = b
  else if op = "!=" then ¬ (a = b)
  else if op = "<" then strLt a.data b.data
  else if op = "<=" then strLt a.data b.data || a = b
  else if op = ">" then strLt b.data a.data
  else strLt b.data a.data || a = b

/-- Evaluation of one of the six supported comparison operators on two
integers. -/
def intCmpEval (a : Int) (op : String) (b : Int) : Bool :=
  if op = "=" then a = b
  else if op = "!=" then ¬ (a = b)
  else if op = "<" then a < b
  else if op = "<=" then a ≤ b
  else if op = ">" then b < a
  else b ≤ a

/-- Decimal digits of a numeral, accumulated left to right; any
non-digit character rejects the whole numeral. -/
def parseNatAux : List Char → Nat → Option Nat
  | [], acc => some acc
  | c :: cs, acc =>
      if '0' ≤ c ∧ c ≤ '9' then parseNatAux cs (acc * 10 + (c.toNat - '0'.toNat))
      else none

/-- Modelled from the spec: section 4.4 — parsing the extracted textual
value as an integer (strconv semantics: an optional leading minus sign
followed by at least one decimal digit, nothing else). -/
def strToInt? (s : String) : Option Int :=
  match s.data with
  | [] => none
  | '-' :: [] => none
  | '-' :: c :: cs => (parseNatAux (c :: cs) 0).map (fun n => -(n : Int))
  | cs => (parseNatAux cs 0).map (fun n => (n : Int))

/-- Whether the operator token is one of the six supported binary
comparison operators (spec section 4.4). -/
def validOperatorToken (op : String) : Bool :=
  op = "=" || op = "!=" || op = "<" || op = "<=" || op = ">" || op = ">="

/-- Modelled from the spec: section 4.4 Comparison Operator Evaluator
(evaluateOperator in the surrounding s3select package, not among the
provided sources).  Unsupported operator tokens fail.  A string operand
compares lexically.  A numeric operand first parses the extracted value
as a number; on parse failure ordering operators fail with a
type-mismatch error while equality and inequality fall back to a lexical
comparison against the operand's decimal rendering.  A nil operand (the
non-literal right-hand-side path of jsonWhereClause) fails, per
section 4.1: a non-literal right-hand side must fail, not silently
resolve to a zero value.  In the Go code every error returned pairs with
a false boolean, which the Except encoding reflects. -/
def evaluateOperator (myTblVal : String) (operator : String)
    (operand : Option Operand) : Except SError Bool :=
  if validOperatorToken operator then
    match operand with
    | none => .error .unsupportedSQLOperation
    | some (.str s) => .ok (strCmpEval myTblVal operator s)
    | some (.int n) =>
        match strToInt? myTblVal with
        | some v => .ok (intCmpEval v operator n)
        | none =>
            if operator = "=" || operator = "!=" then
              .ok (strCmpEval myTblVal operator (toString n))
            else .error .typeMismatch
  else .error .unsupportedSQLOperation

/-- Embedding of jsonEvaluateBetween (jsonHelpers.go): the entire
evaluation logic of the Go function body is commented out and the
function unconditionally returns the pair of false and no error (its
only side effect is a debug print).  The RangeCond argument is passed as
its four fields. -/
def jsonEvaluateBetween (_op : String) (_left _fromE _toE : WhereExpr)
    (_tableAlias : String) (_record : Record) (_columnNames : ColumnNames) :
    Except SError Bool :=
  .ok false

/-- Boolean component of a discarded evaluation result, modelling the Go
discard pattern in the OR branch of jsonWhereClause: every error return
path of the evaluator pairs its error with a false boolean, so
discarding the error leaves false. -/
def discardBool : Except SError Bool → Bool
  | .ok b => b
  | .error _ => false

/-- Embedding of jsonWhereClause (jsonHelpers.go).  Mirrors the Go type
switch: a node rendering as the string false short-circuits to false; an
IS-expression falls through the empty case to the trailing default of
true with no error; a range condition accepts exactly the operators
between and not between and delegates to jsonEvaluateBetween, negating
for not between; a binary comparison coerces a literal right-hand side
(a non-literal one leaves the operand nil) and, when the left side is a
column reference, delegates to evaluateOperator — any other left side
falls through to the default true; AND and OR recurse only into
sub-expressions that are themselves binary comparisons, any other
sub-expression kind contributing false, with OR discarding the errors of
its recursive calls; every unmatched node kind returns true with no
error. -/
def jsonWhereClause (row : Record) (columnNames : ColumnNames)
    (tableAlias : String) (whereClause : WhereExpr) : Except SError Bool :=
  if exprString whereClause = "false" then .ok false
  else
    match whereClause with
    | .isExpr _ _ => .ok true
    | .rangeCond op l f t =>
        if op ≠ "between" ∧ op ≠ "not between" then
          .error ErrUnsupportedSQLOperation
        else if op = "not between" then
          match jsonEvaluateBetween op l f t tableAlias row columnNames with
          | .error e => .error e
          | .ok r => .ok (!r)
        else
          match jsonEvaluateBetween op l f t tableAlias row columnNames with
          | .error e => .error e
          | .ok r => .ok r
    | .comparisonExpr op l r =>
        match (match r with
               | .sqlVal v => (evaluateParserType v).map some
               | _ => .ok none) with
        | .error e => .error e
        | .ok operand =>
            match l with
            | .colName name => evaluateOperator (jsonValue name row) op operand
            | _ => .ok true
    | .andExpr l r =>
        match (match l with
               | .comparisonExpr lop ll lr =>
                   jsonWhereClause row columnNames tableAlias (.comparisonExpr lop ll lr)
               | _ => .ok false) with
        | .error e => .error e
        | .ok leftVal =>
            match (match r with
                   | .comparisonExpr rop rl rr =>
                       jsonWhereClause row columnNames tableAlias (.comparisonExpr rop rl rr)
                   | _ => .ok false) with
            | .error e => .error e
            | .ok rightVal => .ok (rightVal && leftVal)
    | .orExpr l r =>
        let leftVal : Bool :=
          match l with
          | .comparisonExpr lop ll lr =>
              discardBool (jsonWhereClause row columnNames tableAlias (.comparisonExpr lop ll lr))
          | _ => false
        let rightVal : Bool :=
          match r with
          | .comparisonExpr rop rl rr =>
              discardBool (jsonWhereClause row columnNames tableAlias (.comparisonExpr rop rl rr))
          | _ => false
        .ok (rightVal || leftVal)
    | _ => .ok true

/-- Outcome of one call of the streaming decoder's Decode method:
a successfully decoded document (a string-keyed map), a successfully
decoded value that is not a string-keyed map, the end-of-stream error,
or any other decode error. -/
inductive DecodeItem where
  | obj (m : Record)
  | nonObj
  | eofErr
  | otherErr


/-- How a call of jsonRead ends: a normal return (possibly nil), process
termination via log.Fatal, or a runtime panic from the type assertion on
a decoded non-map value. -/
inductive ReadOutcome where
  | ret (r : Option Record)
  | fatal
  | panics

/-- Embedding of the method jsonRead (jsonHelpers.go) of JSONInput.  The
input stream is the sequence of outcomes the decoder would produce; the
decoder's More method reports whether that sequence is nonempty.  The Go
loop always exits within its first iteration: an end-of-stream error
breaks out and returns nil, any other decode error calls log.Fatal, and
a successful decode returns at once after asserting the value is a
string-keyed map. -/
def jsonRead : List DecodeItem → ReadOutcome
  | [] => .ret none
  | .eofErr :: _ => .ret none
  | .otherErr :: _ => .fatal
  | .obj m :: _ => .ret (some m)
  | .nonObj :: _ => .panics

/-- Appending strings concatenates their character data. -/
theorem data_append (a b : String) : (a ++ b).data = a.data ++ b.data := by
  cases a; cases b; rfl

/-- A string containing a space character is not the string false. -/
theorem space_ne_false {s : String} (h : ' ' ∈ s.data) : s ≠ "false" := by
  intro heq
  subst heq
  exact absurd h (by decide)

/-- The rendering of a range condition contains the and separator, hence
a space, so the fast path for the literal false never fires on it. -/
theorem exprString_rangeCond_ne_false (op : String) (l f t : WhereExpr) :
    exprString (.rangeCond op l f t) ≠ "false" := by
  apply space_ne_false
  show ' ' ∈ (((exprString l ++ " " ++ op ++ " " ++ exprString f) ++ " and ") ++
      exprString t).data
  rw [data_append, data_append]
  exact List.mem_append_left _ (List.mem_append_right _ (by decide))

/-- Claim C1 (code_bug evidence): a WHERE-clause node of a kind outside
the six dispatched kinds — here an unrecognized node rendering as the
text not age, and a bare column-reference node — does not produce
ErrUnsupportedSQLOperation as the claim requires: jsonWhereClause falls
through its type switch and returns the default boolean true with no
error, silently admitting the record. -/
theorem jsonWhereClause_unrecognized_defaults_true :
    jsonWhereClause [] [] "" (.other "not age") = .ok true ∧
    jsonWhereClause [] [] "" (.colName "age") = .ok true :=
  ⟨rfl, rfl⟩

/-- Claim C2 (code_bug evidence): on the record with field age equal to
20, the range condition age BETWEEN 18 AND 25 must evaluate to true per
the claim, but jsonEvaluateBetween is a stub whose whole body is
commented out and unconditionally returns false with no error, so
jsonWhereClause returns false and the matching record is dropped. -/
theorem jsonWhereClause_between_stub_false :
    jsonWhereClause [("age", .jint 20)] [] ""
        (.rangeCond "between" (.colName "age")
          (.sqlVal (.intVal 18)) (.sqlVal (.intVal 25))) = .ok false ∧
    jsonEvaluateBetween "between" (.colName "age")
        (.sqlVal (.intVal 18)) (.sqlVal (.intVal 25)) ""
        [("age", .jint 20)] [] = .ok false :=
  ⟨rfl, rfl⟩

/-- Claim C3 (code_bug evidence): on a record where the comparisons a
equals x, b equals y and c equals z are each true — and where the inner
conjunction of the first two alone evaluates true — the nested
conjunction (a equals x AND b equals y) AND c equals z evaluates to
false: the AND branch of jsonWhereClause recurses only into
sub-expressions that are binary comparisons, so the nested AND on the
left is never evaluated and silently contributes false. -/
theorem jsonWhereClause_nestedAnd_false :
    jsonWhereClause [("a", .jstr "x"), ("b", .jstr "y"), ("c", .jstr "z")] [] ""
        (.comparisonExpr "=" (.colName "c") (.sqlVal (.strVal "z"))) = .ok true ∧
    jsonWhereClause [("a", .jstr "x"), ("b", .jstr "y"), ("c", .jstr "z")] [] ""
        (.andExpr (.comparisonExpr "=" (.colName "a") (.sqlVal (.strVal "x")))
                  (.comparisonExpr "=" (.colName "b") (.sqlVal (.strVal "y")))) = .ok true ∧
    jsonWhereClause [("a", .jstr "x"), ("b", .jstr "y"), ("c", .jstr "z")] [] ""
        (.andExpr (.andExpr (.comparisonExpr "=" (.colName "a") (.sqlVal (.strVal "x")))
                            (.comparisonExpr "=" (.colName "b") (.sqlVal (.strVal "y"))))
                  (.comparisonExpr "=" (.colName "c") (.sqlVal (.strVal "z")))) = .ok false :=
  ⟨rfl, rfl, rfl⟩

/-- Claim C4 (code_bug evidence): the left side of this OR fails with a
coercion error (its right-hand literal is of an unrecognized kind) and
the right side evaluates to false, so per the claim the OR must surface
the error; instead the OR branch of jsonWhereClause discards the errors
of both recursive calls and returns false with no error. -/
theorem jsonWhereClause_or_discards_error :
    jsonWhereClause [("b", .jstr "y")] [] ""
        (.comparisonExpr "=" (.colName "a") (.sqlVal (.unknownVal "?"))) =
      .error .parseUnknownType ∧
    jsonWhereClause [("b", .jstr "y")] [] ""
        (.comparisonExpr "=" (.colName "b") (.sqlVal (.strVal "nope"))) = .ok false ∧
    jsonWhereClause [("b", .jstr "y")] [] ""
        (.orExpr (.comparisonExpr "=" (.colName "a") (.sqlVal (.unknownVal "?")))
                 (.comparisonExpr "=" (.colName "b") (.sqlVal (.strVal "nope")))) =
      .ok false :=
  ⟨rfl, rfl, rfl⟩

/-- Claim C5 (code_bug evidence): on the record with field status equal
to the text ok, the clause status IS NULL must yield an
UnsupportedOperation error per the claim; the IS-expression case of
jsonWhereClause is an empty to-be-implemented stub that falls through to
the trailing default, returning true with no error. -/
theorem jsonWhereClause_isNull_defaults_true :
    jsonWhereClause [("status", .jstr "ok")] [] ""
        (.isExpr "is null" (.colName "status")) = .ok true :=
  rfl

/-- Claim C6 (code_bug evidence): a binary comparison whose left side is
not a simple column reference — here the literal comparison of 5 with 3
— must fail with ErrUnsupportedSQLOperation per the claim; instead the
left-hand type switch of jsonWhereClause matches nothing and the
function falls through to the default, returning true with no error. -/
theorem jsonWhereClause_nonColumn_left_defaults_true :
    jsonWhereClause [] [] ""
        (.comparisonExpr "=" (.sqlVal (.intVal 5)) (.sqlVal (.intVal 3))) = .ok true :=
  rfl

/-- Claim C7: on a range-condition node jsonWhereClause accepts exactly
the operators between and not between, failing with
ErrUnsupportedSQLOperation on any other operator; for between it returns
the result of the delegate jsonEvaluateBetween unchanged, and for not
between it returns the delegate's result with the boolean negated and
any error propagated unchanged (Except.map negation). -/
theorem jsonWhereClause_rangeCond_spec (row : Record) (cn : ColumnNames)
    (ta op : String) (l f t : WhereExpr) :
    (op ≠ "between" → op ≠ "not between" →
      jsonWhereClause row cn ta (.rangeCond op l f t) =
        .error ErrUnsupportedSQLOperation) ∧
    (op = "between" →
      jsonWhereClause row cn ta (.rangeCond op l f t) =
        jsonEvaluateBetween op l f t ta row cn) ∧
    (op = "not between" →
      jsonWhereClause row cn ta (.rangeCond op l f t) =
        Except.map (fun r => !r) (jsonEvaluateBetween op l f t ta row cn)) := by
  refine ⟨fun h1 h2 => ?_, fun h => ?_, fun h => ?_⟩
  · simp [jsonWhereClause, exprString_rangeCond_ne_false, h1, h2]
  · subst h
    simp [jsonWhereClause, exprString_rangeCond_ne_false, jsonEvaluateBetween]
  · subst h
    simp [jsonWhereClause, exprString_rangeCond_ne_false, jsonEvaluateBetween,
      Except.map]

/-- Claim C7 witness: the three branches of the range-condition contract
at concrete inputs — the unsupported operator like, then between and not
between on the stub delegate. -/
theorem jsonWhereClause_rangeCond_spec_witness :
    jsonWhereClause [] [] ""
        (.rangeCond "like" (.colName "a") (.sqlVal (.intVal 1)) (.sqlVal (.intVal 2))) =
      .error ErrUnsupportedSQLOperation ∧
    jsonWhereClause [] [] ""
        (.rangeCond "between" (.colName "a") (.sqlVal (.intVal 1)) (.sqlVal (.intVal 2))) =
      jsonEvaluateBetween "between" (.colName "a") (.sqlVal (.intVal 1))
        (.sqlVal (.intVal 2)) "" [] [] ∧
    jsonWhereClause [] [] ""
        (.rangeCond "not between" (.colName "a") (.sqlVal (.intVal 1)) (.sqlVal (.intVal 2))) =
      Except.map (fun r => !r)
        (jsonEvaluateBetween "not between" (.colName "a") (.sqlVal (.intVal 1))
          (.sqlVal (.intVal 2)) "" [] []) :=
  ⟨(jsonWhereClause_rangeCond_spec [] [] "" "like" (.colName "a")
      (.sqlVal (.intVal 1)) (.sqlVal (.intVal 2))).1 (by decide) (by decide),
   (jsonWhereClause_rangeCond_spec [] [] "" "between" (.colName "a")
      (.sqlVal (.intVal 1)) (.sqlVal (.intVal 2))).2.1 rfl,
   (jsonWhereClause_rangeCond_spec [] [] "" "not between" (.colName "a")
      (.sqlVal (.intVal 1)) (.sqlVal (.intVal 2))).2.2 rfl⟩

/-- Claim C8: the value extractor jsonValue is a total function into
strings, and on every path that resolves to nothing in the record it
returns the empty string. -/
theorem jsonValue_missing_path (input : String) (row : Record)
    (h : jsonGet row input = none) : jsonValue input row = "" := by
  simp [jsonValue, h]

/-- Claim C8 witness: the path age is absent from a record holding only
the field status, and extraction yields the empty string. -/
theorem jsonValue_missing_path_witness :
    jsonValue "age" [("status", .jstr "ok")] = "" :=
  jsonValue_missing_path "age" [("status", .jstr "ok")] rfl

/-- Claim C9: evaluation is deterministic — jsonWhereClause is a pure
function of the record, the column-name mapping, the table alias and the
AST node, so two invocations on the same inputs yield the identical
result-or-error value. -/
theorem jsonWhereClause_deterministic (row : Record) (cn : ColumnNames)
    (ta : String) (w : WhereExpr) :
    jsonWhereClause row cn ta w = jsonWhereClause row cn ta w := rfl

/-- Claim C10: jsonRead never returns an error value: it returns nil
exactly when the stream is exhausted or the first decode yields
end-of-stream (the two being indistinguishable to the caller), it
returns the first decoded document exactly when that document is a
string-keyed map, and a non-end-of-stream decode failure never returns
at all — the process terminates via log.Fatal. -/
theorem jsonRead_spec (s : List DecodeItem) :
    (jsonRead s = .ret none ↔ s = [] ∨ ∃ t, s = .eofErr :: t) ∧
    (∀ m, jsonRead s = .ret (some m) ↔ ∃ t, s = .obj m :: t) ∧
    (jsonRead s = .fatal ↔ ∃ t, s = .otherErr :: t) ∧
    jsonRead (DecodeItem.eofErr :: s) = jsonRead [] := by
  refine ⟨?_, ?_, ?_, rfl⟩ <;>
    cases s with
    | nil => simp [jsonRead]
    | cons head tail => cases head <;> simp [jsonRead]

end S3Select
